import Mathlib

/-!
Shallow embedding of the aggregation core of the attentv-control monitoring
server (the express server in the repository source).  Timestamps are
modelled as milliseconds since the epoch (`Int`, matching JS `Date.getTime`),
durations as exact rationals (`Rat`, modelling JS numbers), and JS-falsy or
absent fields as `Option.none`.  Store responses are modelled explicitly:
a query response carries an optional item list and an optional continuation
key, exactly as the DynamoDB document client returns them.
-/

/-- One ad-play record, as read from the `attentv-ad-plays-prod` table.
`none` models a missing or JS-falsy field (the code guards with `if (x)`
or defaults with `x || 0`). -/
structure Item where
  timestamp : Option Int := none
  ad_filename : Option String := none
  play_duration : Option Rat := none
  device_id : String := ""
  deriving Repr, DecidableEq

/-- JS `Set.add` on a set represented as an insertion-ordered duplicate-free
list: appends the element if it is not already present. -/
def jsSetAdd {α : Type} [DecidableEq α] (s : List α) (a : α) : List α :=
  if a ∈ s then s else s ++ [a]

/-- `new Date(x || 0).getTime()` on an optional timestamp. -/
def jsDateGetTime (ts : Option Int) : Int := ts.getD 0

/-! ### Ephemeral cache (`getCached` / `setCached`) -/

/-- One entry of the in-memory cache: the cached data plus its insertion
time (`Date.now()` at `setCached` time). -/
structure CacheEntry (α : Type) where
  data : α
  timestamp : Int

/-- The cache `Map` is modelled extensionally as a partial map from keys to
entries. -/
def CacheMap (α : Type) : Type := String → Option (CacheEntry α)

/-- `getCached(cache, key, ttl)` evaluated at clock value `now`: returns the
entry's data if its age is at most `ttl`, otherwise deletes the entry and
returns `none`; a key never inserted returns `none`.  The updated map is
returned alongside the result (the source mutates the map in place). -/
def getCached {α : Type} (cache : CacheMap α) (key : String) (ttl : Int) (now : Int) :
    Option α × CacheMap α :=
  match cache key with
  | none => (none, cache)
  | some entry =>
    let age := now - entry.timestamp
    if age > ttl then (none, fun k => if k = key then none else cache k)
    else (some entry.data, cache)

/-- `setCached(cache, key, data)` evaluated at clock value `now`:
unconditional overwrite, resetting the insertion time. -/
def setCached {α : Type} (cache : CacheMap α) (key : String) (data : α) (now : Int) :
    CacheMap α :=
  fun k => if k = key then some { data := data, timestamp := now } else cache k

/-! ### Week-over-week comparison (`GET /api/stats/aggregate/week-comparison`) -/

/-- Milliseconds per day, as in `7 * 24 * 60 * 60 * 1000`. -/
def msPerDay : Int := 24 * 60 * 60 * 1000

/-- The current-week filter: records whose (present) timestamp satisfies
`date >= oneWeekAgo`, where `oneWeekAgo = now - 7 days`. -/
def currentWeekItems (allItems : List Item) (now : Int) : List Item :=
  allItems.filter fun item =>
    match item.timestamp with
    | none => false
    | some ts => decide (now - 7 * msPerDay ≤ ts)

/-- The previous-week filter: records whose (present) timestamp satisfies
`date >= twoWeeksAgo && date < oneWeekAgo`. -/
def previousWeekItems (allItems : List Item) (now : Int) : List Item :=
  allItems.filter fun item =>
    match item.timestamp with
    | none => false
    | some ts => decide (now - 14 * msPerDay ≤ ts) && decide (ts < now - 7 * msPerDay)

/-- Per-window statistics computed by `getWeekStats`. -/
structure WeekStats where
  plays : Nat
  duration : Rat
  uniqueAds : Nat
  deriving Repr, DecidableEq

/-- `getWeekStats(items)`: play count, total duration (summing only truthy
durations, which is equivalent to defaulting to 0), and distinct ad count. -/
def getWeekStats (items : List Item) : WeekStats :=
  let uniqueAds := items.foldl
    (fun s item =>
      match item.ad_filename with
      | some ad => jsSetAdd s ad
      | none => s) []
  let totalDuration := items.foldl
    (fun acc item =>
      match item.play_duration with
      | some d => acc + d
      | none => acc) (0 : Rat)
  { plays := items.length, duration := totalDuration, uniqueAds := uniqueAds.length }

/-- The `change` object of the week-comparison response (current − previous,
elementwise; play and ad-count differences may be negative). -/
structure WeekChange where
  plays : Int
  duration : Rat
  uniqueAds : Int
  deriving Repr, DecidableEq

/-- The week-comparison response body. -/
structure WeekComparison where
  currentWeek : WeekStats
  previousWeek : WeekStats
  change : WeekChange
  deriving Repr, DecidableEq

/-- The week-comparison aggregation of the handler, given the gathered
records and the reference time `now`. -/
def weekComparison (allItems : List Item) (now : Int) : WeekComparison :=
  let currentWeek := getWeekStats (currentWeekItems allItems now)
  let previousWeek := getWeekStats (previousWeekItems allItems now)
  { currentWeek := currentWeek
    previousWeek := previousWeek
    change :=
      { plays := (currentWeek.plays : Int) - (previousWeek.plays : Int)
        duration := currentWeek.duration - previousWeek.duration
        uniqueAds := (currentWeek.uniqueAds : Int) - (previousWeek.uniqueAds : Int) } }

/-! ### Pagination walker (`getAllItemsForDevice`) -/

/-- A DynamoDB query response: `Items` (possibly an empty list, possibly
absent) and the continuation token `LastEvaluatedKey` (absent on the last
page). -/
structure QueryResp where
  Items : Option (List Item)
  LastEvaluatedKey : Option Nat
  deriving Repr, DecidableEq

/-- The pagination walker: repeatedly sends a query, passing the previous
response's `LastEvaluatedKey` as the next `ExclusiveStartKey` (`none` on the
first call), accumulating all returned items, until a response carries no
key.  Returns the accumulated items and the number of queries issued; the
source loop is unbounded, so the embedding carries fuel and the theorems
assume enough fuel for the (finite) page sequence. -/
def getAllItemsForDevice (send : Option Nat → QueryResp) :
    Nat → Option Nat → List Item × Nat
  | 0, _ => ([], 0)
  | fuel + 1, startKey =>
    let response := send startKey
    let pageItems := response.Items.getD []
    match response.LastEvaluatedKey with
    | none => (pageItems, 1)
    | some key =>
      let rest := getAllItemsForDevice send fuel (some key)
      (pageItems ++ rest.1, rest.2 + 1)

/-- A store behaviour serving a finite sequence of pages along a chain of
continuation tokens starting from `startKey`: every page but the last
carries a token that, when passed back, yields the next page; the last page
carries none. -/
inductive PagedResponse (send : Option Nat → QueryResp) :
    Option Nat → List (List Item) → Prop where
  | last (startKey : Option Nat) (pageItems : List Item)
      (h : send startKey = { Items := some pageItems, LastEvaluatedKey := none }) :
      PagedResponse send startKey [pageItems]
  | more (startKey : Option Nat) (pageItems : List Item) (nextKey : Nat)
      (rest : List (List Item))
      (h : send startKey = { Items := some pageItems, LastEvaluatedKey := some nextKey })
      (htail : PagedResponse send (some nextKey) rest) :
      PagedResponse send startKey (pageItems :: rest)

/-! ### Hourly patterns (`GET /api/stats/aggregate/hourly-patterns`, the
`includeDayOfWeek = false` branch, whose map key is just the hour) -/

/-- `new Date(ts).getUTCHours()` for a timestamp in milliseconds: floor
division and nonnegative remainder, as JS date arithmetic. -/
def jsUTCHour (ts : Int) : Int := ts / 3600000 % 24

/-- The per-bucket accumulator of the hour map. -/
structure HourStats where
  plays : Nat
  duration : Rat
  deriving Repr, DecidableEq

/-- JS `Map.get` on a map represented as an insertion-ordered association
list. -/
def mapGetList {κ σ : Type} [DecidableEq κ] : List (κ × σ) → κ → Option σ
  | [], _ => none
  | (k, v) :: rest, key => if k = key then some v else mapGetList rest key

/-- JS `Map.set` on an insertion-ordered association list: update in place
if the key exists, else append. -/
def mapSetList {κ σ : Type} [DecidableEq κ] : List (κ × σ) → κ → σ → List (κ × σ)
  | [], key, v => [(key, v)]
  | (k, w) :: rest, key, v =>
    if k = key then (k, v) :: rest else (k, w) :: mapSetList rest key v

/-- One iteration of the `allItems.forEach` body building the hour map:
records with no timestamp are skipped; otherwise the bucket for the record's
UTC hour gains one play and the record's duration (defaulted to 0). -/
def hourStep (m : List (Int × HourStats)) (item : Item) : List (Int × HourStats) :=
  match item.timestamp with
  | none => m
  | some ts =>
    let hour := jsUTCHour ts
    let existing := (mapGetList m hour).getD { plays := 0, duration := 0 }
    mapSetList m hour
      { plays := existing.plays + 1
        duration := existing.duration + item.play_duration.getD 0 }

/-- The hour map built from all gathered records. -/
def buildHourMap (items : List Item) : List (Int × HourStats) :=
  items.foldl hourStep []

/-- One element of the `patterns` array of the response. -/
structure HourBucket where
  hour : Int
  plays : Nat
  duration : Rat
  deriving Repr, DecidableEq

/-- The hourly-patterns aggregation (`includeDayOfWeek = false`): the hour
map's entries, in insertion order, shaped into response buckets. -/
def hourlyPatterns (items : List Item) : List HourBucket :=
  (buildHourMap items).map fun e =>
    { hour := e.1, plays := e.2.plays, duration := e.2.duration }

/-- Whether a record falls in UTC hour `h` (records with no timestamp fall
in no hour). -/
def itemClockHour (item : Item) (h : Int) : Bool :=
  match item.timestamp with
  | some ts => decide (jsUTCHour ts = h)
  | none => false

/-- Specification-side count of records in hour `h`. -/
def hourPlays (items : List Item) (h : Int) : Nat :=
  (items.filter (itemClockHour · h)).length

/-- Specification-side duration sum of records in hour `h`. -/
def hourDuration (items : List Item) (h : Int) : Rat :=
  ((items.filter (itemClockHour · h)).map fun i => i.play_duration.getD 0).sum

/-! ### Per-ad aggregation (`GET /api/stats/device/:deviceId/ads`) and the
leaderboard's per-ad statistics -/

/-- One per-ad statistics object.  The device-ads route omits `frequency`
and `deviceCount` (left at their defaults here); the leaderboard fills them
in.  `error` is set only by the per-ad catch handlers. -/
structure AdStat where
  adFilename : String := ""
  totalPlays : Nat := 0
  totalDuration : Rat := 0
  averageDuration : Rat := 0
  frequency : Rat := 0
  deviceCount : Nat := 0
  lastPlayed : Option Int := none
  error : Option String := none
  deriving Repr, DecidableEq

/-- The per-ad aggregation of the device-ads handler over the records
matching one ad: play count, duration sum (`play_duration || 0`), average
(`totalDuration / totalPlays` when positive, else 0), and the timestamp of a
record sorted first by descending `getTime` (or `null` when there are no
records, or that record's timestamp is falsy). -/
def adAggregate (adFilename : String) (items : List Item) : AdStat :=
  let totalPlays := items.length
  let totalDuration := items.foldl (fun sum item => sum + item.play_duration.getD 0) (0 : Rat)
  let averageDuration := if totalPlays > 0 then totalDuration / (totalPlays : Rat) else 0
  let lastPlayed :=
    if 0 < items.length then
      (items.insertionSort fun a b =>
          jsDateGetTime b.timestamp ≤ jsDateGetTime a.timestamp).head?.bind
        (fun item => item.timestamp)
    else none
  { adFilename := adFilename
    totalPlays := totalPlays
    totalDuration := totalDuration
    averageDuration := averageDuration
    lastPlayed := lastPlayed }

/-- The per-ad fan-out body of the device-ads handler: a successful
sub-query is aggregated; a failed one is caught and converted into a zeroed
entry carrying the error message. -/
def perAdResult (adFilename : String) (queryOutcome : Except String (List Item)) : AdStat :=
  match queryOutcome with
  | .ok items => adAggregate adFilename items
  | .error msg =>
    { adFilename := adFilename
      totalPlays := 0
      totalDuration := 0
      averageDuration := 0
      lastPlayed := none
      error := some msg }

/-- The device-ads response: HTTP status plus one entry per ad name. -/
structure DeviceAdsResponse where
  status : Nat
  deviceId : String
  ads : List AdStat

/-- The device-ads handler after the ad list has been obtained: fans out one
sub-query per ad (modelled by its outcome `query ad`) and always responds
200 with one entry per ad. -/
def deviceAdsHandler (deviceId : String) (adNames : List String)
    (query : String → Except String (List Item)) : DeviceAdsResponse :=
  { status := 200
    deviceId := deviceId
    ads := adNames.map fun ad => perAdResult ad (query ad) }

/-! ### Leaderboard device loop (`GET /api/stats/ads/leaderboard`) -/

/-- The paged query loop the leaderboard runs for one ad on one device:
items are accumulated from every response whose `Items` field is present,
and the returned flag records whether any response had a present `Items`
field — the condition under which the source adds the device to
`deviceSet`. -/
def queryAdOnDevice (send : Option Nat → QueryResp) :
    Nat → Option Nat → List Item × Bool
  | 0, _ => ([], false)
  | fuel + 1, startKey =>
    let response := send startKey
    let page :=
      match response.Items with
      | some pageItems => (pageItems, true)
      | none => (([] : List Item), false)
    match response.LastEvaluatedKey with
    | none => page
    | some key =>
      let rest := queryAdOnDevice send fuel (some key)
      (page.1 ++ rest.1, page.2 || rest.2)

/-- The per-ad device loop of the leaderboard handler: queries every device
in order, accumulating all items, and adds a device to `deviceSet` whenever
its loop saw a response with a present `Items` field.  `deviceCount` in the
response is the length of the second component. -/
def leaderboardCollect (send : String → Option Nat → QueryResp) (fuel : Nat)
    (devices : List String) : List Item × List String :=
  devices.foldl
    (fun acc deviceId =>
      let r := queryAdOnDevice (send deviceId) fuel none
      (acc.1 ++ r.1, if r.2 then jsSetAdd acc.2 deviceId else acc.2))
    ([], [])

/-! ### Leaderboard sort and slice -/

/-- The leaderboard comparator as a boolean "sorts-no-later-than" relation:
the source comparator returns `b.field - a.field`, i.e. sorts descending by
the requested field, with `plays` as the default (the `'plays'` case falls
through to the default). -/
def adStatDescByB (sortBy : String) (a b : AdStat) : Bool :=
  if sortBy = "duration" then decide (b.totalDuration ≤ a.totalDuration)
  else if sortBy = "frequency" then decide (b.frequency ≤ a.frequency)
  else decide (b.totalPlays ≤ a.totalPlays)

/-- `adStats.sort(comparator)`: a stable sort under the leaderboard
comparator (JS `Array.sort` is stable). -/
def leaderboardOrder (adStats : List AdStat) (sortBy : String) : List AdStat :=
  adStats.insertionSort fun a b => adStatDescByB sortBy a b = true

/-- The leaderboard response assembly: `{ ads: sorted.slice(0, limit),
total: sorted.length }`. -/
def leaderboardResponse (adStats : List AdStat) (sortBy : String) (limit : Nat) :
    List AdStat × Nat :=
  let sorted := leaderboardOrder adStats sortBy
  (sorted.take limit, sorted.length)

/-! ### POST /api/stats -/

/-- The request body of `POST /api/stats` (attribute values modelled as
strings; `limit` defaults to 100 as in the destructuring). -/
structure StatsRequestBody where
  tableName : Option String := none
  limit : Nat := 100
  partitionKey : Option String := none
  partitionValue : Option String := none
  sortKey : Option String := none
  sortValue : Option String := none
  sortValueStart : Option String := none
  sortValueEnd : Option String := none
  indexName : Option String := none

/-- The command sent to the document client: a `QueryCommand` with its key
condition, attribute maps, limit and optional index, or a `ScanCommand`. -/
inductive StoreCommand where
  | query (tableName : String) (indexName : Option String) (keyCondition : List String)
      (attrNames : List (String × String)) (attrValues : List (String × String))
      (limit : Nat)
  | scan (tableName : String) (limit : Nat)
  deriving Repr, DecidableEq

/-- Builds the store command exactly as the handler does: `Query` when a
partition key and value are supplied (with the sort-key condition chosen by
the source's `between` / equality / lower-bound / upper-bound priority),
else `Scan`. -/
def buildStatsCommand (tableName : String) (body : StatsRequestBody) : StoreCommand :=
  match body.partitionKey, body.partitionValue with
  | some pk, some pv =>
    let attrNames := [("#pk", pk)]
    let attrValues := [(":pk", pv)]
    let conditions := ["#pk = :pk"]
    match body.sortKey with
    | none => .query tableName body.indexName conditions attrNames attrValues body.limit
    | some sk =>
      let attrNames := attrNames ++ [("#sk", sk)]
      match body.sortValueStart, body.sortValueEnd with
      | some s, some e =>
        .query tableName body.indexName
          (conditions ++ ["#sk BETWEEN :sk_start AND :sk_end"]) attrNames
          (attrValues ++ [(":sk_start", s), (":sk_end", e)]) body.limit
      | some s, none =>
        match body.sortValue with
        | some v =>
          .query tableName body.indexName (conditions ++ ["#sk = :sk"]) attrNames
            (attrValues ++ [(":sk", v)]) body.limit
        | none =>
          .query tableName body.indexName (conditions ++ ["#sk >= :sk_start"]) attrNames
            (attrValues ++ [(":sk_start", s)]) body.limit
      | none, some e =>
        match body.sortValue with
        | some v =>
          .query tableName body.indexName (conditions ++ ["#sk = :sk"]) attrNames
            (attrValues ++ [(":sk", v)]) body.limit
        | none =>
          .query tableName body.indexName (conditions ++ ["#sk <= :sk_end"]) attrNames
            (attrValues ++ [(":sk_end", e)]) body.limit
      | none, none =>
        match body.sortValue with
        | some v =>
          .query tableName body.indexName (conditions ++ ["#sk = :sk"]) attrNames
            (attrValues ++ [(":sk", v)]) body.limit
        | none =>
          .query tableName body.indexName conditions attrNames attrValues body.limit
  | _, _ => .scan tableName body.limit

/-- A provider error: the thrown error's `message` (the empty string models
a falsy message, which the handler replaces by its fixed fallback) and its
`name` (surfaced as the response `code`). -/
structure StoreError where
  message : String
  name : String
  deriving Repr, DecidableEq

/-- A successful document-client response to the passthrough route. -/
structure ScanOutput where
  Items : Option (List Item) := none
  Count : Option Nat := none
  ScannedCount : Option Nat := none
  deriving Repr, DecidableEq

/-- The JSON body of a `POST /api/stats` response: the success shape, or the
error shape `{error, code?}` (the 400 branch sends no `code` field). -/
inductive StatsResponseBody where
  | ok (items : List Item) (count : Nat) (scannedCount : Nat)
  | err (error : String) (code : Option String)
  deriving Repr, DecidableEq

/-- The `code` field of a response body (absent on the success shape and on
bodies that never set it). -/
def respCode : StatsResponseBody → Option String
  | .ok _ _ _ => none
  | .err _ c => c

/-- The `POST /api/stats` handler: missing (or falsy) `tableName` returns
400 immediately, before any store call; otherwise the built command is sent
and a failure is mapped to 500 with `{error: message || fallback,
code: name}`. -/
def postStats (body : StatsRequestBody)
    (send : StoreCommand → Except StoreError ScanOutput) : Nat × StatsResponseBody :=
  match body.tableName with
  | none => (400, .err "Table name is required" none)
  | some tableName =>
    if tableName = "" then (400, .err "Table name is required" none)
    else
      match send (buildStatsCommand tableName body) with
      | .ok r => (200, .ok (r.Items.getD []) (r.Count.getD 0) (r.ScannedCount.getD 0))
      | .error e =>
        (500, .err (if e.message = "" then "Failed to fetch statistics" else e.message)
          (some e.name))

/-! ### Device and ad listing (`GET /api/devices`,
`GET /api/devices/:deviceId/ads`) -/

/-- If `pat` is a prefix of `s`, the remainder of `s`; else `none`. -/
def stripMatch : List Char → List Char → Option (List Char)
  | s, [] => some s
  | [], _ :: _ => none
  | c :: s, p :: ps => if c = p then stripMatch s ps else none

/-- Remove the first occurrence of `pat` from `s` (JS
`String.replace(pat, '')` with a string pattern). -/
def replaceFirstAux : List Char → List Char → List Char
  | [], _ => []
  | c :: s, pat =>
    match stripMatch (c :: s) pat with
    | some rest => rest
    | none => c :: replaceFirstAux s pat

/-- JS `s.replace(pat, '')`: removes the first occurrence of `pat`. -/
def jsReplaceFirst (s pat : String) : String :=
  { data := replaceFirstAux s.data pat.data }

/-- Whether `pat` is a prefix of `s`, as a boolean. -/
def leadMatchB : List Char → List Char → Bool
  | _, [] => true
  | [], _ :: _ => false
  | c :: s, p :: ps => c == p && leadMatchB s ps

/-- JS `s.endsWith(suffix)`. -/
def jsEndsWith (s suffix : String) : Bool :=
  leadMatchB s.data.reverse suffix.data.reverse

/-- The UTF-16 code units of one character (a surrogate pair for characters
beyond the basic plane). -/
def charUtf16 (c : Char) : List Nat :=
  let v := c.toNat
  if v < 65536 then [v]
  else [55296 + (v - 65536) / 1024, 56320 + (v - 65536) % 1024]

/-- The UTF-16 code-unit sequence of a string, the sequence JS compares. -/
def utf16Units (s : String) : List Nat :=
  (s.data.map charUtf16).flatten

/-- Lexicographic "less than or equal" on code-unit sequences. -/
def lexUnitsLe : List Nat → List Nat → Bool
  | [], _ => true
  | _ :: _, [] => false
  | x :: xs, y :: ys =>
    if x < y then true else if y < x then false else lexUnitsLe xs ys

/-- JavaScript's default string comparison (the order of `Array.sort()` with
no comparator): lexicographic on UTF-16 code units. -/
def jsStringLe (a b : String) : Bool := lexUnitsLe (utf16Units a) (utf16Units b)

/-- The `GET /api/devices` handler body: the bucket's common prefixes (each
possibly absent), each stripped of its first `/`, filtered to truthy names
other than the reserved `ad_metrics`, then sorted with the default
comparator. -/
def listDevicesRoute (commonPrefixes : List (Option String)) : List String :=
  (((commonPrefixes.map fun p => p.map fun s => jsReplaceFirst s "/").filterMap fun d =>
      match d with
      | some s => if s ≠ "" ∧ s ≠ "ad_metrics" then some s else none
      | none => none)).insertionSort fun a b => jsStringLe a b = true

/-- The `GET /api/devices/:deviceId/ads` handler body: the listed object
keys (each possibly absent), each stripped of the first occurrence of the
device prefix, filtered to truthy names ending in `.mp4`, then sorted with
the default comparator. -/
def listDeviceAdsRoute (deviceId : String) (keys : List (Option String)) : List String :=
  let pfx := deviceId ++ "/"
  (((keys.map fun k => k.map fun s => jsReplaceFirst s pfx).filterMap fun a =>
      match a with
      | some s => if s ≠ "" ∧ jsEndsWith s ".mp4" = true then some s else none
      | none => none)).insertionSort fun a b => jsStringLe a b = true

/-! ### Concrete inputs used by witnesses and counterexamples -/

/-- A record in UTC hour 3. -/
def itemAtHour3a : Item := { timestamp := some (3 * 3600000) }

/-- A second record in UTC hour 3. -/
def itemAtHour3b : Item := { timestamp := some (3 * 3600000 + 60000) }

/-- A record in UTC hour 14. -/
def itemAtHour14 : Item := { timestamp := some (14 * 3600000) }

/-- Five distinguishable records for the pagination example. -/
def exRecord (n : Int) : Item := { timestamp := some n }

/-- A three-page store behaviour serving pages of 2, 2 and 1 records, with
continuation tokens on the first two pages only. -/
def exPageSend : Option Nat → QueryResp
  | none => { Items := some [exRecord 0, exRecord 1], LastEvaluatedKey := some 1 }
  | some 1 => { Items := some [exRecord 2, exRecord 3], LastEvaluatedKey := some 2 }
  | some 2 => { Items := some [exRecord 4], LastEvaluatedKey := none }
  | some _ => { Items := none, LastEvaluatedKey := none }

/-- A leaderboard store behaviour for one ad: device `d1` has one matching
record; device `d2` has none, and its query returns the empty `Items` list
the store reports in that case. -/
def exLbSend : String → Option Nat → QueryResp := fun deviceId _ =>
  if deviceId = "d1" then { Items := some [exRecord 0], LastEvaluatedKey := none }
  else { Items := some [], LastEvaluatedKey := none }

/-- Three leaderboard rows with `totalPlays` 10, 30 and 20. -/
def exStat (name : String) (plays : Nat) : AdStat :=
  { adFilename := name, totalPlays := plays }

/-- A store stub for the passthrough route that always succeeds with an
empty page. -/
def exStatsSend : StoreCommand → Except StoreError ScanOutput := fun _ =>
  .ok { Items := some [], Count := some 0, ScannedCount := some 0 }

/-- A store stub for the passthrough route that always fails with a fixed
provider error. -/
def exErrSend : StoreCommand → Except StoreError ScanOutput := fun _ =>
  .error { message := "boom", name := "AccessDenied" }

/-- A store stub for the passthrough route that fails with an empty (falsy)
provider message. -/
def exEmptyMsgSend : StoreCommand → Except StoreError ScanOutput := fun _ =>
  .error { message := "", name := "AccessDenied" }

/-- A per-ad sub-query behaviour for the fan-out example: the query for
`bad.mp4` fails, every other ad yields one record of duration 5. -/
def exAdQuery : String → Except String (List Item) := fun ad =>
  if ad = "bad.mp4" then .error "boom" else .ok [{ play_duration := some 5 }]

/-! ## Theorems -/

/-- Helper: the pagination walker, started anywhere along a finite token
chain with enough fuel, returns the concatenation of the remaining pages and
issues one query per page. -/
theorem pagedWalk_eq (send : Option Nat → QueryResp) (pages : List (List Item))
    (startKey : Option Nat) (fuel : Nat) (hpg : PagedResponse send startKey pages)
    (hfuel : pages.length ≤ fuel) :
    getAllItemsForDevice send fuel startKey = (pages.flatten, pages.length) := by
  induction hpg generalizing fuel with
  | last startKey pageItems h =>
    cases fuel with
    | zero => simp at hfuel
    | succ f => simp [getAllItemsForDevice, h]
  | more startKey pageItems nextKey rest h htail ih =>
    cases fuel with
    | zero => simp at hfuel
    | succ f =>
      have hrest : rest.length ≤ f := by
        simpa using Nat.succ_le_succ_iff.mp (by simpa using hfuel)
      simp [getAllItemsForDevice, h, ih f hrest]

/-- C3: for every store behaviour serving a finite token-chained page
sequence, the walker issues one query per page, threads each continuation
token into the next query, stops at the tokenless page, and returns the
pages' concatenation; concretely, pages of 2/2/1 records yield the 5
records after 3 calls. -/
theorem getAllItemsForDevice_pagination (send : Option Nat → QueryResp)
    (pages : List (List Item)) (fuel : Nat)
    (hpages : PagedResponse send none pages) (hfuel : pages.length ≤ fuel) :
    getAllItemsForDevice send fuel none = (pages.flatten, pages.length) ∧
    getAllItemsForDevice exPageSend 3 none
      = ([exRecord 0, exRecord 1, exRecord 2, exRecord 3, exRecord 4], 3) :=
  ⟨pagedWalk_eq send pages none fuel hpages hfuel, by decide⟩

/-- Witness for C3 at the concrete 2/2/1 store behaviour. -/
theorem getAllItemsForDevice_pagination_witness :
    getAllItemsForDevice exPageSend 3 none
      = ([[exRecord 0, exRecord 1], [exRecord 2, exRecord 3],
          [exRecord 4]].flatten,
         ([[exRecord 0, exRecord 1], [exRecord 2, exRecord 3],
           [exRecord 4]] : List (List Item)).length) :=
  (getAllItemsForDevice_pagination exPageSend
    [[exRecord 0, exRecord 1], [exRecord 2, exRecord 3], [exRecord 4]] 3
    (PagedResponse.more none [exRecord 0, exRecord 1] 1 _ rfl
      (PagedResponse.more (some 1) [exRecord 2, exRecord 3] 2 _ rfl
        (PagedResponse.last (some 2) [exRecord 4] rfl)))
    (by decide)).1

/-- C2: a `setCached` followed by a `getCached` within the ttl returns the
value; past the ttl it returns `none` and removes the entry; a key never
inserted reads as `none`. -/
theorem cache_ttl_correct {α : Type} (cache : CacheMap α) (key : String) (v : α)
    (ttl now later : Int) (httl : 0 < ttl) :
    (later - now ≤ ttl →
      (getCached (setCached cache key v now) key ttl later).1 = some v) ∧
    (ttl < later - now →
      (getCached (setCached cache key v now) key ttl later).1 = none ∧
      (getCached (setCached cache key v now) key ttl later).2 key = none) ∧
    (cache key = none → (getCached cache key ttl later).1 = none) := by
  have hset : (setCached cache key v now) key = some { data := v, timestamp := now } := by
    simp [setCached]
  refine ⟨?_, ?_, ?_⟩
  · intro h
    simp only [getCached, hset]
    rw [if_neg (by omega)]
  · intro h
    simp only [getCached, hset]
    rw [if_pos (by omega)]
    simp
  · intro h
    simp [getCached, h]

/-- Witness for C2 at a concrete cache, key, value, ttl and clock values. -/
theorem cache_ttl_correct_witness :
    ((2 : Int) - 0 ≤ 10 →
      (getCached (setCached (fun _ => (none : Option (CacheEntry Nat))) "k" 7 0)
        "k" 10 2).1 = some 7) ∧
    ((10 : Int) < 2 - 0 →
      (getCached (setCached (fun _ => (none : Option (CacheEntry Nat))) "k" 7 0)
        "k" 10 2).1 = none ∧
      (getCached (setCached (fun _ => (none : Option (CacheEntry Nat))) "k" 7 0)
        "k" 10 2).2 "k" = none) ∧
    ((fun _ => (none : Option (CacheEntry Nat))) "k" = none →
      (getCached (fun _ => (none : Option (CacheEntry Nat))) "k" 10 2).1 = none) :=
  cache_ttl_correct (fun _ => none) "k" 7 10 0 2 (by decide)

/-- C5 (code bug): at a store where device `d1` has one matching record and
device `d2` has none (its query returns a present but empty `Items` list,
as the document client does), the leaderboard loop's device set still
contains both devices, so `deviceCount = 2`, while only 1 device has at
least one matching play record. -/
theorem leaderboard_deviceCount_counts_empty_devices :
    (leaderboardCollect exLbSend 1 ["d1", "d2"]).2.length = 2 ∧
    ((["d1", "d2"].filter fun d =>
        !(queryAdOnDevice (exLbSend d) 1 none).1.isEmpty).length = 1) := by
  decide

/-- C9 counterexample: the 400 response for a missing `tableName` carries
only the `error` message and no `code` field, so the error body is not of
the claimed `{error, code}` shape on that path. -/
theorem postStats_400_missing_code :
    (postStats { tableName := none } exStatsSend).1 = 400 ∧
    respCode (postStats { tableName := none } exStatsSend).2 = none := by
  decide

/-- C9 (amended): a missing or falsy (empty) `tableName` yields 400 with
body `{error: "Table name is required"}` and no `code`, without consulting
the store (the response is the same under every store behaviour); any store
failure yields 500 with the provider's `name` as `code` and the provider's
message when it is non-empty, the fixed fallback message when it is
empty. -/
theorem postStats_error_paths (body : StatsRequestBody)
    (send send' : StoreCommand → Except StoreError ScanOutput) (tn : String)
    (e : StoreError) :
    (body.tableName = none ∨ body.tableName = some "" →
      postStats body send = (400, .err "Table name is required" none) ∧
      postStats body send' = postStats body send) ∧
    (body.tableName = some tn → tn ≠ "" →
      send (buildStatsCommand tn body) = .error e →
      (e.message ≠ "" → postStats body send = (500, .err e.message (some e.name))) ∧
      (e.message = "" →
        postStats body send
          = (500, .err "Failed to fetch statistics" (some e.name)))) := by
  constructor
  · rintro (h | h)
    · exact ⟨by simp [postStats, h], by simp [postStats, h]⟩
    · exact ⟨by simp [postStats, h], by simp [postStats, h]⟩
  · intro h hne hsend
    constructor
    · intro hmsg
      simp [postStats, h, hne, hsend, hmsg]
    · intro hmsg
      simp [postStats, h, hne, hsend, hmsg]

/-- Witness for C9 at concrete bodies and stores: the missing and the falsy
(empty) table name, a failing store with a non-empty provider message, and
a failing store with an empty message (exercising the fallback). -/
theorem postStats_error_paths_witness :
    postStats { tableName := none } exStatsSend
      = (400, .err "Table name is required" none) ∧
    postStats { tableName := some "" } exStatsSend
      = (400, .err "Table name is required" none) ∧
    postStats { tableName := some "attentv-ad-plays-prod" } exErrSend
      = (500, .err "boom" (some "AccessDenied")) ∧
    postStats { tableName := some "attentv-ad-plays-prod" } exEmptyMsgSend
      = (500, .err "Failed to fetch statistics" (some "AccessDenied")) :=
  ⟨((postStats_error_paths { tableName := none } exStatsSend exStatsSend "t"
      { message := "boom", name := "AccessDenied" }).1 (Or.inl rfl)).1,
   ((postStats_error_paths { tableName := some "" } exStatsSend exStatsSend "t"
      { message := "boom", name := "AccessDenied" }).1 (Or.inr rfl)).1,
   ((postStats_error_paths { tableName := some "attentv-ad-plays-prod" } exErrSend
      exErrSend "attentv-ad-plays-prod" { message := "boom", name := "AccessDenied" }).2
      rfl (by decide) rfl).1 (by decide),
   ((postStats_error_paths { tableName := some "attentv-ad-plays-prod" } exEmptyMsgSend
      exEmptyMsgSend "attentv-ad-plays-prod" { message := "", name := "AccessDenied" }).2
      rfl (by decide) rfl).2 rfl⟩

/-- Helper: folding the duration sum from any accumulator equals the
accumulator plus the sum of the defaulted durations. -/
theorem foldl_duration_sum (items : List Item) :
    ∀ acc : Rat,
      items.foldl (fun sum item => sum + item.play_duration.getD 0) acc
        = acc + ((items.map fun i => i.play_duration.getD 0).sum) := by
  induction items with
  | nil => intro acc; simp
  | cons i l ih => intro acc; simp [ih, add_assoc]

/-- C7: the per-ad aggregation counts the matching records, sums their
durations (absent counted 0), averages as total over count when the count
is positive and 0 otherwise, reports `lastPlayed = none` on zero records,
and on the single record of duration 5 yields total 5 and average 5. -/
theorem adAggregate_fields (ad : String) (items : List Item) :
    (adAggregate ad items).totalPlays = items.length ∧
    (adAggregate ad items).totalDuration
      = ((items.map fun i => i.play_duration.getD 0).sum) ∧
    (0 < items.length →
      (adAggregate ad items).averageDuration
        = (adAggregate ad items).totalDuration / (items.length : Rat)) ∧
    (items = [] →
      (adAggregate ad items).averageDuration = 0 ∧
      (adAggregate ad items).lastPlayed = none) ∧
    ((adAggregate ad [{ play_duration := some 5 }]).totalDuration = 5 ∧
      (adAggregate ad [{ play_duration := some 5 }]).averageDuration = 5) := by
  refine ⟨rfl, ?_, ?_, ?_, ?_, ?_⟩
  · simp [adAggregate, foldl_duration_sum]
  · intro h
    simp [adAggregate, gt_iff_lt, h]
  · intro h
    subst h
    constructor
    · simp [adAggregate]
    · simp [adAggregate]
  · norm_num [adAggregate]
  · norm_num [adAggregate]

/-- Witness for C7 at the single record of duration 5. -/
theorem adAggregate_fields_witness :
    0 < ([{ play_duration := some 5 }] : List Item).length ∧
    (adAggregate "x.mp4" [{ play_duration := some 5 }]).averageDuration
      = (adAggregate "x.mp4" [{ play_duration := some 5 }]).totalDuration
        / (([{ play_duration := some 5 }] : List Item).length : Rat) :=
  ⟨by decide, (adAggregate_fields "x.mp4" [{ play_duration := some 5 }]).2.2.1 (by decide)⟩

/-- C8: in the device-ads fan-out, a failed sub-query yields the zeroed
entry with the error message at that ad's position, sibling entries do not
depend on the failing ad's behaviour, and the response is still a 200 with
one entry per ad. -/
theorem deviceAds_partial_failure (deviceId : String) (adNames : List String)
    (query query' : String → Except String (List Item)) (ad msg : String)
    (hfail : query ad = .error msg)
    (hagree : ∀ a, a ≠ ad → query' a = query a) :
    (deviceAdsHandler deviceId adNames query).status = 200 ∧
    (deviceAdsHandler deviceId adNames query).ads.length = adNames.length ∧
    (∀ i : Nat, adNames[i]? = some ad →
      (deviceAdsHandler deviceId adNames query).ads[i]?
        = some { adFilename := ad, totalPlays := 0, totalDuration := 0,
                 averageDuration := 0, frequency := 0, deviceCount := 0,
                 lastPlayed := none, error := some msg }) ∧
    (∀ i : Nat, ∀ a, adNames[i]? = some a → a ≠ ad →
      (deviceAdsHandler deviceId adNames query').ads[i]?
        = (deviceAdsHandler deviceId adNames query).ads[i]?) := by
  refine ⟨rfl, by simp [deviceAdsHandler], ?_, ?_⟩
  · intro i hi
    simp [deviceAdsHandler, List.getElem?_map, hi, perAdResult, hfail]
  · intro i a hi hne
    simp [deviceAdsHandler, List.getElem?_map, hi, hagree a hne]

/-- Witness for C8 at a two-ad fan-out whose second sub-query fails. -/
theorem deviceAds_partial_failure_witness :
    (deviceAdsHandler "dev1" ["good.mp4", "bad.mp4"] exAdQuery).status = 200 ∧
    (deviceAdsHandler "dev1" ["good.mp4", "bad.mp4"] exAdQuery).ads.length
      = (["good.mp4", "bad.mp4"] : List String).length ∧
    (∀ i : Nat, (["good.mp4", "bad.mp4"] : List String)[i]? = some "bad.mp4" →
      (deviceAdsHandler "dev1" ["good.mp4", "bad.mp4"] exAdQuery).ads[i]?
        = some { adFilename := "bad.mp4", totalPlays := 0, totalDuration := 0,
                 averageDuration := 0, frequency := 0, deviceCount := 0,
                 lastPlayed := none, error := some "boom" }) ∧
    (∀ i : Nat, ∀ a, (["good.mp4", "bad.mp4"] : List String)[i]? = some a →
      a ≠ "bad.mp4" →
      (deviceAdsHandler "dev1" ["good.mp4", "bad.mp4"] exAdQuery).ads[i]?
        = (deviceAdsHandler "dev1" ["good.mp4", "bad.mp4"] exAdQuery).ads[i]?) :=
  deviceAds_partial_failure "dev1" ["good.mp4", "bad.mp4"] exAdQuery exAdQuery
    "bad.mp4" "boom" rfl (fun _ _ => rfl)

/-- C1: a (timestamped) record is in the current week iff its timestamp is
at least `now - 7d`, in the previous week iff it lies in
`[now - 14d, now - 7d)`, hence never in both and a record exactly at the
7-day boundary only in the current week; the `change` fields are the
elementwise current-minus-previous differences; and records at `now - 3d`
and `now - 10d` (at the reference time `20 * msPerDay`) give
`currentWeek.plays = 1`, `previousWeek.plays = 1`, `change.plays = 0`. -/
theorem weekComparison_windows (allItems : List Item) (now : Int) (item : Item)
    (ts : Int) (hts : item.timestamp = some ts) :
    (item ∈ currentWeekItems allItems now ↔
      item ∈ allItems ∧ now - 7 * msPerDay ≤ ts) ∧
    (item ∈ previousWeekItems allItems now ↔
      item ∈ allItems ∧ now - 14 * msPerDay ≤ ts ∧ ts < now - 7 * msPerDay) ∧
    ¬(item ∈ currentWeekItems allItems now ∧ item ∈ previousWeekItems allItems now) ∧
    (ts = now - 7 * msPerDay → item ∈ allItems →
      item ∈ currentWeekItems allItems now ∧ item ∉ previousWeekItems allItems now) ∧
    ((weekComparison allItems now).change.plays
      = ((weekComparison allItems now).currentWeek.plays : Int)
        - ((weekComparison allItems now).previousWeek.plays : Int)) ∧
    ((weekComparison allItems now).change.duration
      = (weekComparison allItems now).currentWeek.duration
        - (weekComparison allItems now).previousWeek.duration) ∧
    ((weekComparison allItems now).change.uniqueAds
      = ((weekComparison allItems now).currentWeek.uniqueAds : Int)
        - ((weekComparison allItems now).previousWeek.uniqueAds : Int)) ∧
    ((weekComparison [{ timestamp := some (20 * msPerDay - 3 * msPerDay) },
        { timestamp := some (20 * msPerDay - 10 * msPerDay) }]
        (20 * msPerDay)).currentWeek.plays = 1 ∧
      (weekComparison [{ timestamp := some (20 * msPerDay - 3 * msPerDay) },
        { timestamp := some (20 * msPerDay - 10 * msPerDay) }]
        (20 * msPerDay)).previousWeek.plays = 1 ∧
      (weekComparison [{ timestamp := some (20 * msPerDay - 3 * msPerDay) },
        { timestamp := some (20 * msPerDay - 10 * msPerDay) }]
        (20 * msPerDay)).change.plays = 0) := by
  have hcur : item ∈ currentWeekItems allItems now ↔
      item ∈ allItems ∧ now - 7 * msPerDay ≤ ts := by
    simp [currentWeekItems, List.mem_filter, hts]
  have hprev : item ∈ previousWeekItems allItems now ↔
      item ∈ allItems ∧ now - 14 * msPerDay ≤ ts ∧ ts < now - 7 * msPerDay := by
    simp [previousWeekItems, List.mem_filter, hts]
  refine ⟨hcur, hprev, ?_, ?_, rfl, rfl, rfl, by decide, by decide, by decide⟩
  · rintro ⟨hc, hp⟩
    obtain ⟨-, hc2⟩ := hcur.mp hc
    obtain ⟨-, -, hp3⟩ := hprev.mp hp
    omega
  · intro hboundary hmem
    subst hboundary
    refine ⟨hcur.mpr ⟨hmem, by omega⟩, ?_⟩
    intro hp
    obtain ⟨-, -, hlt⟩ := hprev.mp hp
    omega

/-- Witness for C1 at a concrete record list and reference time. -/
theorem weekComparison_windows_witness :
    ((⟨some (17 * msPerDay), none, none, ""⟩ : Item)
        ∈ currentWeekItems [⟨some (17 * msPerDay), none, none, ""⟩] (20 * msPerDay) ↔
      (⟨some (17 * msPerDay), none, none, ""⟩ : Item)
        ∈ [(⟨some (17 * msPerDay), none, none, ""⟩ : Item)] ∧
      20 * msPerDay - 7 * msPerDay ≤ 17 * msPerDay) ∧
    (weekComparison [{ timestamp := some (20 * msPerDay - 3 * msPerDay) },
      { timestamp := some (20 * msPerDay - 10 * msPerDay) }]
      (20 * msPerDay)).change.plays = 0 :=
  ⟨(weekComparison_windows [⟨some (17 * msPerDay), none, none, ""⟩] (20 * msPerDay)
      ⟨some (17 * msPerDay), none, none, ""⟩ (17 * msPerDay) rfl).1,
   (weekComparison_windows [⟨some (17 * msPerDay), none, none, ""⟩] (20 * msPerDay)
      ⟨some (17 * msPerDay), none, none, ""⟩ (17 * msPerDay) rfl).2.2.2.2.2.2.2.2.2⟩

/-- Helper: the leaderboard comparator relation is total. -/
theorem adStatDescByB_total (sortBy : String) (a b : AdStat) :
    adStatDescByB sortBy a b = true ∨ adStatDescByB sortBy b a = true := by
  unfold adStatDescByB
  by_cases hd : sortBy = "duration"
  · simp only [if_pos hd, decide_eq_true_eq]
    exact le_total _ _
  · by_cases hf : sortBy = "frequency"
    · simp only [if_neg hd, if_pos hf, decide_eq_true_eq]
      exact le_total _ _
    · simp only [if_neg hd, if_neg hf, decide_eq_true_eq]
      exact le_total _ _

/-- Helper: the leaderboard comparator relation is transitive. -/
theorem adStatDescByB_trans (sortBy : String) (a b c : AdStat)
    (h1 : adStatDescByB sortBy a b = true) (h2 : adStatDescByB sortBy b c = true) :
    adStatDescByB sortBy a c = true := by
  unfold adStatDescByB at h1 h2 ⊢
  by_cases hd : sortBy = "duration"
  · simp only [if_pos hd, decide_eq_true_eq] at h1 h2 ⊢
    exact le_trans h2 h1
  · by_cases hf : sortBy = "frequency"
    · simp only [if_neg hd, if_pos hf, decide_eq_true_eq] at h1 h2 ⊢
      exact le_trans h2 h1
    · simp only [if_neg hd, if_neg hf, decide_eq_true_eq] at h1 h2 ⊢
      exact le_trans h2 h1

/-- C6: the leaderboard response lists its entries in descending order of
the requested field (`totalDuration` for `duration`, `frequency` for
`frequency`, `totalPlays` for `plays` and for every other value), truncated
to the first `limit` entries, with `total` the number of entries before
truncation; three ads with `totalPlays` 10/30/20 under `sortBy = "plays"`
come out as 30, 20, 10. -/
theorem leaderboard_sort_correct (adStats : List AdStat) (sortBy : String)
    (limit : Nat) :
    ((leaderboardResponse adStats sortBy limit).1.Pairwise
      fun a b => adStatDescByB sortBy a b = true) ∧
    (sortBy = "duration" →
      (leaderboardResponse adStats sortBy limit).1.Pairwise
        fun a b => b.totalDuration ≤ a.totalDuration) ∧
    (sortBy = "frequency" →
      (leaderboardResponse adStats sortBy limit).1.Pairwise
        fun a b => b.frequency ≤ a.frequency) ∧
    (sortBy ≠ "duration" → sortBy ≠ "frequency" →
      (leaderboardResponse adStats sortBy limit).1.Pairwise
        fun a b => b.totalPlays ≤ a.totalPlays) ∧
    (leaderboardResponse adStats sortBy limit).1.length = min limit adStats.length ∧
    (leaderboardResponse adStats sortBy limit).2 = adStats.length ∧
    ((leaderboardResponse [exStat "a" 10, exStat "b" 30, exStat "c" 20] "plays" 20).1.map
      fun s => s.totalPlays) = [30, 20, 10] := by
  haveI : IsTotal AdStat (fun a b => adStatDescByB sortBy a b = true) :=
    ⟨fun a b => adStatDescByB_total sortBy a b⟩
  haveI : IsTrans AdStat (fun a b => adStatDescByB sortBy a b = true) :=
    ⟨fun a b c => adStatDescByB_trans sortBy a b c⟩
  have hsorted : (leaderboardOrder adStats sortBy).Pairwise
      (fun a b => adStatDescByB sortBy a b = true) :=
    List.sorted_insertionSort _ _
  have htake : ((leaderboardOrder adStats sortBy).take limit).Pairwise
      (fun a b => adStatDescByB sortBy a b = true) :=
    List.Pairwise.sublist (List.take_sublist _ _) hsorted
  refine ⟨htake, ?_, ?_, ?_, ?_, ?_, by decide⟩
  · intro hd
    subst hd
    exact htake.imp fun hab => by simpa [adStatDescByB] using hab
  · intro hf
    subst hf
    exact htake.imp fun hab => by simpa [adStatDescByB] using hab
  · intro h1 h2
    exact htake.imp fun hab => by simpa [adStatDescByB, h1, h2] using hab
  · simp [leaderboardResponse, leaderboardOrder, List.length_take]
  · simp [leaderboardResponse, leaderboardOrder]

/-- Witness for C6 at the concrete 10/30/20 leaderboard. -/
theorem leaderboard_sort_correct_witness :
    ("plays" : String) ≠ "duration" ∧
    ((leaderboardResponse [exStat "a" 10, exStat "b" 30, exStat "c" 20] "plays" 20).1.Pairwise
      fun a b => b.totalPlays ≤ a.totalPlays) :=
  ⟨by decide,
   (leaderboard_sort_correct [exStat "a" 10, exStat "b" 30, exStat "c" 20]
      "plays" 20).2.2.2.1 (by decide) (by decide)⟩

/-- Helper: the JS default string order is total. -/
theorem lexUnitsLe_total : ∀ xs ys : List Nat,
    lexUnitsLe xs ys = true ∨ lexUnitsLe ys xs = true
  | [], _ => Or.inl rfl
  | _ :: _, [] => Or.inr rfl
  | x :: xs, y :: ys => by
    by_cases hxy : x < y
    · left
      simp [lexUnitsLe, hxy]
    · by_cases hyx : y < x
      · right
        simp [lexUnitsLe, hyx]
      · have hx : x = y := by omega
        subst hx
        rcases lexUnitsLe_total xs ys with h | h
        · left
          simp [lexUnitsLe, hxy, h]
        · right
          simp [lexUnitsLe, hxy, h]

/-- Helper: the JS default string order is transitive. -/
theorem lexUnitsLe_trans : ∀ xs ys zs : List Nat,
    lexUnitsLe xs ys = true → lexUnitsLe ys zs = true → lexUnitsLe xs zs = true
  | [], _, _ => fun _ _ => rfl
  | _ :: _, [], _ => fun h _ => by simp [lexUnitsLe] at h
  | _ :: _, _ :: _, [] => fun _ h => by simp [lexUnitsLe] at h
  | x :: xs, y :: ys, z :: zs => fun h1 h2 => by
    simp only [lexUnitsLe] at h1 h2 ⊢
    by_cases hxy : x < y
    · have hyz : y ≤ z := by
        by_cases h : y < z
        · omega
        · by_cases h' : z < y
          · simp [h, h'] at h2
          · omega
      have hxz : x < z := by omega
      simp [hxz]
    · by_cases hyx : y < x
      · simp [hxy, hyx] at h1
      · have hx : x = y := by omega
        subst hx
        simp only [if_neg hxy] at h1
        by_cases hxz : x < z
        · simp [hxz]
        · by_cases hzx : z < x
          · simp [hxz, hzx] at h2
          · have hz : x = z := by omega
            subst hz
            simp only [if_neg hxz] at h2
            simp [if_neg hxz, lexUnitsLe_trans xs ys zs h1 h2]

/-- Totality of `jsStringLe`. -/
theorem jsStringLe_total (a b : String) :
    jsStringLe a b = true ∨ jsStringLe b a = true :=
  lexUnitsLe_total _ _

/-- Transitivity of `jsStringLe`. -/
theorem jsStringLe_trans (a b c : String) (h1 : jsStringLe a b = true)
    (h2 : jsStringLe b c = true) : jsStringLe a c = true :=
  lexUnitsLe_trans _ _ _ h1 h2

/-- C10: the devices list and the per-device ads list come out sorted
ascending under JavaScript's default string comparison (lexicographic on
UTF-16 code units), and contain only names passing the stated filters
(truthy, not `ad_metrics`; truthy, ending in `.mp4`). -/
theorem devices_ads_sorted (commonPrefixes keys : List (Option String))
    (deviceId : String) :
    (listDevicesRoute commonPrefixes).Pairwise (fun a b => jsStringLe a b = true) ∧
    (∀ d ∈ listDevicesRoute commonPrefixes, d ≠ "" ∧ d ≠ "ad_metrics") ∧
    (listDeviceAdsRoute deviceId keys).Pairwise (fun a b => jsStringLe a b = true) ∧
    (∀ a ∈ listDeviceAdsRoute deviceId keys, a ≠ "" ∧ jsEndsWith a ".mp4" = true) := by
  haveI : IsTotal String (fun a b => jsStringLe a b = true) := ⟨jsStringLe_total⟩
  haveI : IsTrans String (fun a b => jsStringLe a b = true) := ⟨jsStringLe_trans⟩
  refine ⟨List.sorted_insertionSort _ _, ?_, List.sorted_insertionSort _ _, ?_⟩
  · intro d hd
    simp only [listDevicesRoute] at hd
    rw [(List.perm_insertionSort _ _).mem_iff] at hd
    simp only [List.mem_filterMap] at hd
    obtain ⟨opt, -, hfd⟩ := hd
    cases opt with
    | none => simp at hfd
    | some s =>
      by_cases hc : s ≠ "" ∧ s ≠ "ad_metrics"
      · simp only [if_pos hc, Option.some.injEq] at hfd
        exact hfd ▸ hc
      · simp [if_neg hc] at hfd
  · intro a ha
    simp only [listDeviceAdsRoute] at ha
    rw [(List.perm_insertionSort _ _).mem_iff] at ha
    simp only [List.mem_filterMap] at ha
    obtain ⟨opt, -, hfa⟩ := ha
    cases opt with
    | none => simp at hfa
    | some s =>
      by_cases hc : s ≠ "" ∧ jsEndsWith s ".mp4" = true
      · simp only [if_pos hc, Option.some.injEq] at hfa
        exact hfa ▸ hc
      · simp [if_neg hc] at hfa

/-- Witness for C10 at a concrete bucket listing. -/
theorem devices_ads_sorted_witness :
    (listDevicesRoute [some "dev2/", some "dev1/", some "ad_metrics/", none]).Pairwise
      (fun a b => jsStringLe a b = true) ∧
    ("dev1" ∈ listDevicesRoute [some "dev2/", some "dev1/", some "ad_metrics/", none] ∧
      ("dev1" ≠ "" ∧ ("dev1" : String) ≠ "ad_metrics")) :=
  ⟨(devices_ads_sorted [some "dev2/", some "dev1/", some "ad_metrics/", none] [] "d").1,
   by decide,
   (devices_ads_sorted [some "dev2/", some "dev1/", some "ad_metrics/", none] [] "d").2.1
     "dev1" (by decide)⟩

/-- Helper: looking up the key just set returns the new value. -/
theorem mapGetList_set_self {κ σ : Type} [DecidableEq κ] :
    ∀ (m : List (κ × σ)) (k : κ) (v : σ), mapGetList (mapSetList m k v) k = some v
  | [], k, v => by simp [mapSetList, mapGetList]
  | (k0, w) :: rest, k, v => by
    by_cases hk : k0 = k
    · simp [mapSetList, hk, mapGetList]
    · simp [mapSetList, hk, mapGetList, mapGetList_set_self rest k v]

/-- Helper: setting one key leaves lookups of other keys unchanged. -/
theorem mapGetList_set_ne {κ σ : Type} [DecidableEq κ] :
    ∀ (m : List (κ × σ)) (k : κ) (v : σ) (k' : κ), k' ≠ k →
      mapGetList (mapSetList m k v) k' = mapGetList m k'
  | [], k, v, k' => fun hne => by
    simp [mapSetList, mapGetList, Ne.symm hne]
  | (k0, w) :: rest, k, v, k' => fun hne => by
    by_cases hk : k0 = k
    · subst hk
      simp [mapSetList, mapGetList, Ne.symm hne]
    · simp [mapSetList, hk, mapGetList, mapGetList_set_ne rest k v k' hne]

/-- Helper: an hour with no records also has duration sum 0. -/
theorem hourDuration_of_plays_zero (items : List Item) (h : Int)
    (h0 : hourPlays items h = 0) : hourDuration items h = 0 := by
  unfold hourPlays at h0
  unfold hourDuration
  rw [List.length_eq_zero.mp h0]
  simp

/-- Helper: the hour map maps each hour with at least one record to that
hour's play count and duration sum, and omits every other hour. -/
theorem buildHourMap_lookup (h : Int) (items : List Item) :
    mapGetList (buildHourMap items) h
      = if hourPlays items h = 0 then none
        else some { plays := hourPlays items h, duration := hourDuration items h } := by
  induction items using List.reverseRecOn with
  | nil => simp [buildHourMap, mapGetList, hourPlays, hourDuration]
  | append_singleton l i ih =>
    have hfold : buildHourMap (l ++ [i]) = hourStep (buildHourMap l) i := by
      simp [buildHourMap, List.foldl_append]
    rw [hfold]
    cases hts : i.timestamp with
    | none =>
      have hclock : itemClockHour i h = false := by simp [itemClockHour, hts]
      have hplays : hourPlays (l ++ [i]) h = hourPlays l h := by
        simp [hourPlays, List.filter_append, hclock]
      have hdur : hourDuration (l ++ [i]) h = hourDuration l h := by
        simp [hourDuration, List.filter_append, hclock]
      rw [hplays, hdur, ← ih]
      simp [hourStep, hts]
    | some ts =>
      by_cases hh : jsUTCHour ts = h
      · have hclock : itemClockHour i h = true := by simp [itemClockHour, hts, hh]
        have hplays : hourPlays (l ++ [i]) h = hourPlays l h + 1 := by
          simp [hourPlays, List.filter_append, hclock]
        have hdur : hourDuration (l ++ [i]) h
            = hourDuration l h + i.play_duration.getD 0 := by
          simp [hourDuration, List.filter_append, hclock]
        rw [hplays, hdur]
        simp only [hourStep, hts, hh]
        rw [mapGetList_set_self, ih]
        by_cases h0 : hourPlays l h = 0
        · simp [h0, hourDuration_of_plays_zero l h h0]
        · simp [h0]
      · have hclock : itemClockHour i h = false := by simp [itemClockHour, hts, hh]
        have hplays : hourPlays (l ++ [i]) h = hourPlays l h := by
          simp [hourPlays, List.filter_append, hclock]
        have hdur : hourDuration (l ++ [i]) h = hourDuration l h := by
          simp [hourDuration, List.filter_append, hclock]
        rw [hplays, hdur, ← ih]
        simp only [hourStep, hts]
        exact mapGetList_set_ne _ _ _ _ fun he => hh he.symm

/-- Helper: searching the response buckets for hour `h` mirrors the hour-map
lookup. -/
theorem find?_hourMap (h : Int) :
    ∀ m : List (Int × HourStats),
      ((m.map fun e =>
          ({ hour := e.1, plays := e.2.plays, duration := e.2.duration } : HourBucket)).find?
        fun b => decide (b.hour = h))
        = (mapGetList m h).map fun s =>
            ({ hour := h, plays := s.plays, duration := s.duration } : HourBucket)
  | [] => by simp [mapGetList]
  | (k, v) :: rest => by
    by_cases hk : k = h
    · subst hk
      rw [List.map_cons, List.find?_cons_of_pos _ (by simp)]
      simp [mapGetList]
    · rw [List.map_cons, List.find?_cons_of_neg _ (by simp [hk])]
      simp [mapGetList, hk, find?_hourMap h rest]

/-- C4 (amended): each returned bucket for hour `h` carries the count and
duration sum of the records in that hour — but only hours with at least one
record appear, empty hours are omitted rather than zero-filled; records at
hours 3, 3 and 14 yield exactly the buckets `(3, plays 2)` and
`(14, plays 1)`. -/
theorem hourlyPatterns_buckets (items : List Item) (h : Int) :
    ((hourlyPatterns items).find? fun b => decide (b.hour = h))
      = (if hourPlays items h = 0 then none
         else some { hour := h, plays := hourPlays items h,
                     duration := hourDuration items h }) ∧
    ((hourlyPatterns [itemAtHour3a, itemAtHour3b, itemAtHour14]).map
      fun b => (b.hour, b.plays)) = [(3, 2), (14, 1)] := by
  constructor
  · simp only [hourlyPatterns]
    rw [find?_hourMap, buildHourMap_lookup]
    by_cases h0 : hourPlays items h = 0 <;> simp [h0]
  · decide

/-- C4 counterexample: with records at hours 3, 3 and 14 the response has
only 2 buckets and no bucket for hour 0, so the 24 hours are not all
represented. -/
theorem hourlyPatterns_omits_empty_hours :
    (hourlyPatterns [itemAtHour3a, itemAtHour3b, itemAtHour14]).length = 2 ∧
    ((hourlyPatterns [itemAtHour3a, itemAtHour3b, itemAtHour14]).find?
      fun b => decide (b.hour = 0)) = none := by
  decide
